/-
Verification of the credential-issuance script (scripts/create-e2e-admin-key.py)
and the mock inference service (.dev/mock-inference/app.py) of the ai-aas
repository, via a shallow embedding in Lean 4.

Bytes are modelled as `Nat` values below 256; byte strings as `List Nat`;
machine 32-bit words as `Nat` reduced modulo 2^32 at every operation.
-/
import Mathlib

namespace AiAas

/-! ## URL-safe base64 (Python `base64.urlsafe_b64encode`) -/

/-- The URL-safe base64 alphabet used by Python's `base64.urlsafe_b64encode`:
the standard alphabet with `+` and `/` replaced by `-` and `_`. -/
def b64UrlAlphabet : List Char :=
  "ABCDEFGHIJKLMNOPQRSTUVWXYZabcdefghijklmnopqrstuvwxyz0123456789-_".toList

/-- Character for a 6-bit value under the URL-safe alphabet. -/
def b64Char (n : Nat) : Char := b64UrlAlphabet.getD n 'A'

/-- URL-safe base64 encoding with `=` padding, three input bytes to four
output characters, exactly as `base64.urlsafe_b64encode` produces. -/
def b64urlEncode : List Nat → List Char
  | [] => []
  | [b1] => [b64Char (b1 / 4), b64Char (b1 % 4 * 16), '=', '=']
  | [b1, b2] => [b64Char (b1 / 4), b64Char (b1 % 4 * 16 + b2 / 16), b64Char (b2 % 16 * 4), '=']
  | b1 :: b2 :: b3 :: rest =>
      b64Char (b1 / 4) :: b64Char (b1 % 4 * 16 + b2 / 16) ::
      b64Char (b2 % 16 * 4 + b3 / 64) :: b64Char (b3 % 64) :: b64urlEncode rest

/-- URL-safe base64 encoding that never emits padding characters: the
spec's reading of "encoded into a URL-safe text alphabet with padding
characters stripped". -/
def b64urlEncodeNoPad : List Nat → List Char
  | [] => []
  | [b1] => [b64Char (b1 / 4), b64Char (b1 % 4 * 16)]
  | [b1, b2] => [b64Char (b1 / 4), b64Char (b1 % 4 * 16 + b2 / 16), b64Char (b2 % 16 * 4)]
  | b1 :: b2 :: b3 :: rest =>
      b64Char (b1 / 4) :: b64Char (b1 % 4 * 16 + b2 / 16) ::
      b64Char (b2 % 16 * 4 + b3 / 64) :: b64Char (b3 % 64) :: b64urlEncodeNoPad rest

/-- Python's `str.rstrip('=')`: remove every trailing `=` character. -/
def rstripEq : List Char → List Char
  | [] => []
  | c :: cs =>
    match rstripEq cs with
    | [] => if c = '=' then [] else [c]
    | r :: rs => c :: r :: rs

/-- Index of a character in the URL-safe alphabet (its 6-bit value). -/
def b64Index (c : Char) : Nat := b64UrlAlphabet.indexOf c

/-- Modelled from the spec: the repository never decodes a secret, but §8 of
the spec demands that "re-encoding/decoding round-trips exactly"; this is the
standard URL-safe base64 decoder for padding-free input (as
`base64.urlsafe_b64decode` after re-padding would compute). -/
def b64urlDecodeNoPad : List Char → List Nat
  | [] => []
  | [_] => []
  | [c1, c2] => [b64Index c1 * 4 + b64Index c2 / 16]
  | [c1, c2, c3] =>
      [b64Index c1 * 4 + b64Index c2 / 16, b64Index c2 % 16 * 16 + b64Index c3 / 4]
  | c1 :: c2 :: c3 :: c4 :: rest =>
      (b64Index c1 * 4 + b64Index c2 / 16) ::
      (b64Index c2 % 16 * 16 + b64Index c3 / 4) ::
      (b64Index c3 % 4 * 64 + b64Index c4) :: b64urlDecodeNoPad rest

/-! ## UTF-8 encoding (Python `str.encode('utf-8')`) -/

/-- UTF-8 byte sequence of a single Unicode code point. -/
def utf8EncodeChar (n : Nat) : List Nat :=
  if n < 128 then [n]
  else if n < 2048 then [192 + n / 64, 128 + n % 64]
  else if n < 65536 then [224 + n / 4096, 128 + n / 64 % 64, 128 + n % 64]
  else [240 + n / 262144, 128 + n / 4096 % 64, 128 + n / 64 % 64, 128 + n % 64]

/-- UTF-8 encoding of a string, code point by code point, as Python's
`str.encode('utf-8')` produces. -/
def utf8Encode (s : String) : List Nat :=
  (s.toList.map (fun c => utf8EncodeChar c.toNat)).flatten

/-! ## SHA-256 (Python `hashlib.sha256`, per FIPS 180-4)

Words are `Nat` values kept below `2^32` by reducing modulo `2^32` after
every arithmetic operation. -/

/-- Reduce to a 32-bit word. -/
def w32 (n : Nat) : Nat := n % 4294967296

/-- Right rotation of a 32-bit word by `n` places. -/
def rotr32 (x n : Nat) : Nat := w32 (x / 2 ^ n + x % 2 ^ n * 2 ^ (32 - n))

/-- The SHA-256 `Ch` function: `(x AND y) XOR ((NOT x) AND z)`. -/
def sha256Ch (x y z : Nat) : Nat :=
  Nat.xor (Nat.land x y) (Nat.land (Nat.xor (w32 x) 4294967295) z)

/-- The SHA-256 `Maj` function: `(x AND y) XOR (x AND z) XOR (y AND z)`. -/
def sha256Maj (x y z : Nat) : Nat :=
  Nat.xor (Nat.xor (Nat.land x y) (Nat.land x z)) (Nat.land y z)

/-- The SHA-256 big sigma-0 word function. -/
def bigSigma0 (x : Nat) : Nat := Nat.xor (Nat.xor (rotr32 x 2) (rotr32 x 13)) (rotr32 x 22)

/-- The SHA-256 big sigma-1 word function. -/
def bigSigma1 (x : Nat) : Nat := Nat.xor (Nat.xor (rotr32 x 6) (rotr32 x 11)) (rotr32 x 25)

/-- The SHA-256 small sigma-0 word function. -/
def smallSigma0 (x : Nat) : Nat := Nat.xor (Nat.xor (rotr32 x 7) (rotr32 x 18)) (x / 8)

/-- The SHA-256 small sigma-1 word function. -/
def smallSigma1 (x : Nat) : Nat := Nat.xor (Nat.xor (rotr32 x 17) (rotr32 x 19)) (x / 1024)

/-- The 64 SHA-256 round constants of FIPS 180-4, as decimal values. -/
def sha256K : List Nat :=
  [1116352408, 1899447441, 3049323471, 3921009573,
   961987163, 1508970993, 2453635748, 2870763221,
   3624381080, 310598401, 607225278, 1426881987,
   1925078388, 2162078206, 2614888103, 3248222580,
   3835390401, 4022224774, 264347078, 604807628,
   770255983, 1249150122, 1555081692, 1996064986,
   2554220882, 2821834349, 2952996808, 3210313671,
   3336571891, 3584528711, 113926993, 338241895,
   666307205, 773529912, 1294757372, 1396182291,
   1695183700, 1986661051, 2177026350, 2456956037,
   2730485921, 2820302411, 3259730800, 3345764771,
   3516065817, 3600352804, 4094571909, 275423344,
   430227734, 506948616, 659060556, 883997877,
   958139571, 1322822218, 1537002063, 1747873779,
   1955562222, 2024104815, 2227730452, 2361852424,
   2428436474, 2756734187, 3204031479, 3329325298]

/-- The SHA-256 initial hash value, eight 32-bit words, as decimal values. -/
def sha256H0 : List Nat :=
  [1779033703, 3144134277, 1013904242, 2773480762,
   1359893119, 2600822924, 528734635, 1541459225]

/-- Big-endian byte serialization of a number into `k` bytes. -/
def toBytesBE : Nat → Nat → List Nat
  | 0, _ => []
  | k + 1, n => toBytesBE k (n / 256) ++ [n % 256]

/-- Group a byte list into big-endian 32-bit words, four bytes per word. -/
def bytesToWords : List Nat → List Nat
  | b1 :: b2 :: b3 :: b4 :: rest =>
      (b1 * 16777216 + b2 * 65536 + b3 * 256 + b4) :: bytesToWords rest
  | _ => []

/-- Message-schedule extension: append `n` further words, each computed from
the words 2, 7, 15 and 16 places back. -/
def extendSchedule : List Nat → Nat → List Nat
  | ws, 0 => ws
  | ws, n + 1 =>
      let t := ws.length
      extendSchedule
        (ws ++ [w32 (smallSigma1 (ws.getD (t - 2) 0) + ws.getD (t - 7) 0 +
                     smallSigma0 (ws.getD (t - 15) 0) + ws.getD (t - 16) 0)]) n

/-- The 64-entry message schedule of one 64-byte block. -/
def sha256Schedule (block : List Nat) : List Nat :=
  extendSchedule (bytesToWords block) 48

/-- Working state of the SHA-256 compression function: the eight working
variables `a` through `h`. -/
structure Sha256State where
  a : Nat
  b : Nat
  c : Nat
  d : Nat
  e : Nat
  f : Nat
  g : Nat
  h : Nat
deriving Repr, DecidableEq

/-- One round of the SHA-256 compression function, for round constant `k`
and schedule word `w`. -/
def sha256Round (s : Sha256State) (kw : Nat × Nat) : Sha256State :=
  let t1 := w32 (s.h + bigSigma1 s.e + sha256Ch s.e s.f s.g + kw.1 + kw.2)
  let t2 := w32 (bigSigma0 s.a + sha256Maj s.a s.b s.c)
  { a := w32 (t1 + t2), b := s.a, c := s.b, d := s.c,
    e := w32 (s.d + t1), f := s.e, g := s.f, h := s.g }

/-- Compress one 64-byte block into the running hash value. -/
def sha256Compress (hv : Sha256State) (block : List Nat) : Sha256State :=
  let ks := sha256K.zip (sha256Schedule block)
  let s := ks.foldl sha256Round hv
  { a := w32 (hv.a + s.a), b := w32 (hv.b + s.b), c := w32 (hv.c + s.c),
    d := w32 (hv.d + s.d), e := w32 (hv.e + s.e), f := w32 (hv.f + s.f),
    g := w32 (hv.g + s.g), h := w32 (hv.h + s.h) }

/-- SHA-256 padding: append the `0x80` marker, zeros up to 56 mod 64, and
the 64-bit big-endian bit length of the message. -/
def sha256Pad (msg : List Nat) : List Nat :=
  msg ++ 128 :: List.replicate ((119 - msg.length % 64) % 64) 0 ++
    toBytesBE 8 (8 * msg.length)

/-- Split a (padded) byte list into 64-byte blocks. -/
def chunks64 (l : List Nat) : List (List Nat) :=
  if l = [] then [] else l.take 64 :: chunks64 (l.drop 64)
termination_by l.length
decreasing_by
  have hpos : 0 < l.length := List.length_pos.mpr (by assumption)
  simp only [List.length_drop]
  omega

/-- SHA-256 of a byte string: the 32-byte digest, as
`hashlib.sha256(data).digest()` computes. -/
def sha256 (msg : List Nat) : List Nat :=
  let init : Sha256State :=
    { a := sha256H0.getD 0 0, b := sha256H0.getD 1 0, c := sha256H0.getD 2 0,
      d := sha256H0.getD 3 0, e := sha256H0.getD 4 0, f := sha256H0.getD 5 0,
      g := sha256H0.getD 6 0, h := sha256H0.getD 7 0 }
  let fin := (chunks64 (sha256Pad msg)).foldl sha256Compress init
  toBytesBE 4 fin.a ++ toBytesBE 4 fin.b ++ toBytesBE 4 fin.c ++ toBytesBE 4 fin.d ++
  toBytesBE 4 fin.e ++ toBytesBE 4 fin.f ++ toBytesBE 4 fin.g ++ toBytesBE 4 fin.h

/-! ## The issuance script (scripts/create-e2e-admin-key.py)

The script's effectful inputs — the 32 random bytes from
`secrets.token_bytes(32)`, the three `uuid.uuid4()` strings and the current
time — are modelled as explicit inputs of the run.  Timestamps are seconds
as natural numbers. -/

/-- The external text of the generated secret:
`base64.urlsafe_b64encode(secret_bytes).decode('utf-8').rstrip('=')`. -/
def secret (secret_bytes : List Nat) : String :=
  String.mk (rstripEq (b64urlEncode secret_bytes))

/-- Fingerprint of a secret text:
`base64.urlsafe_b64encode(hashlib.sha256(s.encode('utf-8')).digest()).decode('utf-8').rstrip('=')`. -/
def fingerprint (s : String) : String :=
  String.mk (rstripEq (b64urlEncode (sha256 (utf8Encode s))))

/-- The bcrypt constant the script embeds for the companion user row. -/
def password_hash : String :=
  "$2a$10$92IXUNpkjO0rOQ5byMi.Ye4oKoEa3Ro9llC/.og/at2.uheWG/igi"

/-- The SQL interval `365 days`, in seconds. -/
def interval365days : Nat := 365 * 86400

/-- Effectful inputs of one script run: the random secret bytes, the three
generated UUIDs, and the database transaction timestamp `NOW()`. -/
structure RunInputs where
  secret_bytes : List Nat
  org_id : String
  user_id : String
  api_key_id : String
  now : Nat
deriving Repr, DecidableEq

/-- A row of the `orgs` table, fields as in the script's INSERT. -/
structure OrgRow where
  org_id : String
  slug : String
  name : String
  status : String
  declarative_mode : String
  mfa_required_roles : String
  metadata : String
  created_at : Nat
  updated_at : Nat
deriving Repr, DecidableEq

/-- A row of the `users` table, fields as in the script's INSERT. -/
structure UserRow where
  user_id : String
  org_id : String
  email : String
  display_name : String
  password_hash : String
  status : String
  mfa_enrolled : Bool
  mfa_methods : String
  recovery_tokens : String
  metadata : String
  created_at : Nat
  updated_at : Nat
deriving Repr, DecidableEq

/-- A row of the `api_keys` table, fields as in the script's INSERT; the
`annotations` JSON object is modelled as a key-value list. -/
structure ApiKeyRow where
  api_key_id : String
  org_id : String
  principal_type : String
  principal_id : String
  fingerprint : String
  status : String
  scopes : List String
  issued_at : Nat
  expires_at : Nat
  annotations : List (String × String)
  created_at : Nat
  updated_at : Nat
deriving Repr, DecidableEq

/-- The `orgs` row whose VALUES the script emits. -/
def orgRow (i : RunInputs) : OrgRow :=
  { org_id := i.org_id, slug := "e2e-admin-org", name := "E2E Test Admin Organization",
    status := "active", declarative_mode := "disabled", mfa_required_roles := "[]",
    metadata := "\x7b\x7d", created_at := i.now, updated_at := i.now }

/-- The `users` row whose VALUES the script emits. -/
def userRow (i : RunInputs) : UserRow :=
  { user_id := i.user_id, org_id := i.org_id, email := "e2e-admin@ai-aas.dev",
    display_name := "E2E Admin User", password_hash := password_hash, status := "active",
    mfa_enrolled := false, mfa_methods := "[]", recovery_tokens := "[]",
    metadata := "\x7b\x7d", created_at := i.now, updated_at := i.now }

/-- The `api_keys` row whose VALUES the script emits: `issued_at = NOW()`
and `expires_at = NOW() + INTERVAL '365 days'` in the same statement. -/
def apiKeyRow (i : RunInputs) : ApiKeyRow :=
  { api_key_id := i.api_key_id, org_id := i.org_id, principal_type := "user",
    principal_id := i.user_id, fingerprint := fingerprint (secret i.secret_bytes),
    status := "active", scopes := ["*"], issued_at := i.now,
    expires_at := i.now + interval365days,
    annotations := [("purpose", "e2e-tests"), ("created_by", "script")],
    created_at := i.now, updated_at := i.now }

/-! ### The script's emitted output

The output is one long f-string (the SQL with a comment banner) followed by
a short summary block.  For the disclosure claims only the interpolation
sites matter, so the output template is modelled as the ordered list of
script variables interpolated into the printed text; the fixed literal text
between interpolation sites carries no secret material and is elided. -/

/-- A script variable interpolated into the printed output. -/
inductive ScriptVar where
  | vNow
  | vSecret
  | vOrgId
  | vUserId
  | vApiKeyId
  | vFingerprint
  | vPasswordHash
deriving Repr, DecidableEq

open ScriptVar in
/-- The ordered interpolation sites of everything the script prints: first
the SQL f-string (banner timestamp, banner secret, orgs VALUES, users
VALUES with its ON CONFLICT clause, api_keys VALUES, verification-query
comment), then the summary block (secret, org id, user id, api key id). -/
def emittedVars : List ScriptVar :=
  [vNow, vSecret,
   vOrgId,
   vUserId, vOrgId, vPasswordHash, vPasswordHash,
   vApiKeyId, vOrgId, vUserId, vFingerprint,
   vUserId,
   vSecret, vOrgId, vUserId, vApiKeyId]

/-! ## Upsert semantics of the emitted SQL

List-of-rows store with the two ON CONFLICT clauses the claims are about,
read off the emitted statements. -/

/-- `INSERT INTO orgs ... ON CONFLICT (slug) DO UPDATE SET status = 'active'`:
if some stored row has the new row's slug, only those rows' status is set to
`'active'`; otherwise the new row is appended. -/
def upsertOrg (store : List OrgRow) (row : OrgRow) : List OrgRow :=
  if store.any (fun r => r.slug == row.slug) then
    store.map (fun r => if r.slug == row.slug then { r with status := "active" } else r)
  else store ++ [row]

/-- `INSERT INTO api_keys ... ON CONFLICT (org_id, fingerprint) DO UPDATE SET
status = 'active', expires_at = NOW() + INTERVAL '365 days'`: on a
(org_id, fingerprint) conflict only status and expires_at of the conflicting
row are refreshed; otherwise the new row is appended. -/
def upsertApiKey (store : List ApiKeyRow) (row : ApiKeyRow) (now : Nat) : List ApiKeyRow :=
  if store.any (fun r => r.org_id == row.org_id && r.fingerprint == row.fingerprint) then
    store.map (fun r =>
      if r.org_id == row.org_id && r.fingerprint == row.fingerprint then
        { r with status := "active", expires_at := now + interval365days }
      else r)
  else store ++ [row]

/-- The number of stored credential rows with the given key. -/
def countKey (store : List ApiKeyRow) (org fp : String) : Nat :=
  (store.filter (fun r => r.org_id == org && r.fingerprint == fp)).length

/-! ## The mock inference service (.dev/mock-inference/app.py) -/

/-- Whitespace as recognised by Python's argument-free `str.split()`
(`Py_UNICODE_ISSPACE`): the ASCII range U+0009–U+000D, the separators
U+001C–U+001F and U+0020, next-line U+0085, no-break space U+00A0, ogham
space U+1680, the typographic spaces U+2000–U+200A, the line and paragraph
separators U+2028 and U+2029, narrow no-break U+202F, medium mathematical
U+205F and ideographic space U+3000. -/
def isPySpace (c : Char) : Bool :=
  let n := c.toNat
  (9 ≤ n && n ≤ 13) || (28 ≤ n && n ≤ 32) || n == 133 || n == 160 ||
  n == 5760 || (8192 ≤ n && n ≤ 8202) || n == 8232 || n == 8233 ||
  n == 8239 || n == 8287 || n == 12288

/-- Word counter behind `len(s.split())`: the number of maximal nonempty
runs of non-whitespace characters; the Boolean records whether the previous
character was inside such a run. -/
def splitCountAux : List Char → Bool → Nat
  | [], _ => 0
  | c :: cs, inWord =>
      if isPySpace c then splitCountAux cs false
      else (if inWord then 0 else 1) + splitCountAux cs true

/-- `len(s.split())` for Python's whitespace `split()`. -/
def splitCount (s : String) : Nat := splitCountAux s.toList false

/-- Request model of the `/v1/completions` endpoint. -/
structure CompletionRequest where
  prompt : String
  max_tokens : Int := 100
  model : String := "gpt-4o"
deriving Repr, DecidableEq

/-- Response model of the `/v1/completions` endpoint. -/
structure CompletionResponse where
  text : String
  tokens_used : Int
  model : String
deriving Repr, DecidableEq

/-- The `/v1/completions` handler: `tokens = len(req.prompt.split()) + 10`,
response text is the prompt with the mock suffix, `tokens_used` is
`min(tokens, req.max_tokens)`. -/
def completions (req : CompletionRequest) : CompletionResponse :=
  let tokens : Int := (splitCount req.prompt : Int) + 10
  { text := req.prompt ++ " [mock inference response]",
    tokens_used := min tokens req.max_tokens,
    model := req.model }

/-! ## Base64 lemmas -/

/-- Every character the encoder emits is in the URL-safe alphabet. -/
theorem b64Char_mem (n : Nat) : b64Char n ∈ b64UrlAlphabet := by
  unfold b64Char
  rcases Nat.lt_or_ge n b64UrlAlphabet.length with h | h
  · rw [List.getD_eq_getElem _ _ h]
    exact List.getElem_mem h
  · rw [List.getD_eq_default _ _ h]
    decide

/-- The URL-safe alphabet contains no padding character. -/
theorem b64Char_ne_pad (n : Nat) : b64Char n ≠ '=' := by
  intro h
  have := b64Char_mem n
  rw [h] at this
  exact absurd this (by decide)

/-- Stripping trailing `=` skips over a prefix that contains none. -/
theorem rstripEq_append (l1 l2 : List Char) (h : ∀ c ∈ l1, c ≠ '=') :
    rstripEq (l1 ++ l2) = l1 ++ rstripEq l2 := by
  induction l1 with
  | nil => rfl
  | cons c cs ih =>
    have hc : c ≠ '=' := h c (List.mem_cons_self c cs)
    have ih' := ih (fun x hx => h x (List.mem_cons_of_mem _ hx))
    simp only [List.cons_append, rstripEq, List.append_eq]
    rw [ih']
    cases hl : cs ++ rstripEq l2 with
    | nil => simp [hc]
    | cons r rs => rfl

/-- Stripping the `=` padding off the padded URL-safe encoding yields
exactly the padding-free encoding. -/
theorem rstripEq_b64urlEncode (bs : List Nat) :
    rstripEq (b64urlEncode bs) = b64urlEncodeNoPad bs := by
  induction bs using b64urlEncode.induct with
  | case1 => rfl
  | case2 b1 =>
    simp [b64urlEncode, b64urlEncodeNoPad, rstripEq, b64Char_ne_pad]
  | case3 b1 b2 =>
    simp [b64urlEncode, b64urlEncodeNoPad, rstripEq, b64Char_ne_pad]
  | case4 b1 b2 b3 rest ih =>
    have h4 : ∀ c ∈ [b64Char (b1 / 4), b64Char (b1 % 4 * 16 + b2 / 16),
        b64Char (b2 % 16 * 4 + b3 / 64), b64Char (b3 % 64)], c ≠ '=' := by
      intro c hc
      simp only [List.mem_cons, List.not_mem_nil, or_false] at hc
      rcases hc with h | h | h | h <;> (subst h; exact b64Char_ne_pad _)
    calc rstripEq (b64urlEncode (b1 :: b2 :: b3 :: rest))
        = rstripEq ([b64Char (b1 / 4), b64Char (b1 % 4 * 16 + b2 / 16),
            b64Char (b2 % 16 * 4 + b3 / 64), b64Char (b3 % 64)] ++ b64urlEncode rest) := rfl
      _ = _ ++ rstripEq (b64urlEncode rest) := rstripEq_append _ _ h4
      _ = b64urlEncodeNoPad (b1 :: b2 :: b3 :: rest) := by rw [ih]; rfl

/-- The alphabet index of an emitted character recovers its 6-bit value. -/
theorem b64Index_b64Char (n : Nat) (h : n < 64) : b64Index (b64Char n) = n := by
  have H : ∀ m : Fin 64, b64Index (b64Char m.val) = m.val := by decide
  exact H ⟨n, h⟩

/-- Every character of the padding-free encoding is in the URL-safe
alphabet. -/
theorem mem_b64urlEncodeNoPad (bs : List Nat) :
    ∀ c ∈ b64urlEncodeNoPad bs, c ∈ b64UrlAlphabet := by
  induction bs using b64urlEncodeNoPad.induct with
  | case1 => intro c hc; simp [b64urlEncodeNoPad] at hc
  | case2 b1 =>
    intro c hc
    simp only [b64urlEncodeNoPad, List.mem_cons, List.not_mem_nil, or_false] at hc
    rcases hc with h | h <;> (subst h; exact b64Char_mem _)
  | case3 b1 b2 =>
    intro c hc
    simp only [b64urlEncodeNoPad, List.mem_cons, List.not_mem_nil, or_false] at hc
    rcases hc with h | h | h <;> (subst h; exact b64Char_mem _)
  | case4 b1 b2 b3 rest ih =>
    intro c hc
    simp only [b64urlEncodeNoPad, List.mem_cons] at hc
    rcases hc with h | h | h | h | h
    · subst h; exact b64Char_mem _
    · subst h; exact b64Char_mem _
    · subst h; exact b64Char_mem _
    · subst h; exact b64Char_mem _
    · exact ih c h

/-- Decoding inverts the padding-free encoding on byte inputs. -/
theorem b64urlDecodeNoPad_encodeNoPad (bs : List Nat) (h : ∀ b ∈ bs, b < 256) :
    b64urlDecodeNoPad (b64urlEncodeNoPad bs) = bs := by
  induction bs using b64urlEncodeNoPad.induct with
  | case1 => rfl
  | case2 b1 =>
    have hb1 : b1 < 256 := h b1 (by simp)
    simp only [b64urlEncodeNoPad, b64urlDecodeNoPad]
    rw [b64Index_b64Char _ (by omega), b64Index_b64Char _ (by omega)]
    simp only [List.cons.injEq, and_true]
    omega
  | case3 b1 b2 =>
    have hb1 : b1 < 256 := h b1 (by simp)
    have hb2 : b2 < 256 := h b2 (by simp)
    simp only [b64urlEncodeNoPad, b64urlDecodeNoPad]
    rw [b64Index_b64Char _ (by omega), b64Index_b64Char _ (by omega),
        b64Index_b64Char _ (by omega)]
    simp only [List.cons.injEq, and_true]
    constructor <;> omega
  | case4 b1 b2 b3 rest ih =>
    have hb1 : b1 < 256 := h b1 (by simp)
    have hb2 : b2 < 256 := h b2 (by simp)
    have hb3 : b3 < 256 := h b3 (by simp)
    have ih' := ih (fun b hb => h b (by simp [hb]))
    simp only [b64urlEncodeNoPad, b64urlDecodeNoPad]
    rw [b64Index_b64Char _ (by omega), b64Index_b64Char _ (by omega),
        b64Index_b64Char _ (by omega), b64Index_b64Char _ (by omega)]
    simp only [List.cons.injEq]
    refine ⟨by omega, by omega, by omega, ih'⟩

/-! ## Claim theorems -/

/-- Claim C1: for every secret text `s`, the fingerprint of `s` is the
SHA-256 digest of the UTF-8 bytes of `s` re-encoded in the URL-safe base64
alphabet with all `=` padding stripped: it equals the padding-free URL-safe
encoding of the digest, every character lies in the URL-safe alphabet, and
no padding character remains. -/
theorem C1_fingerprint_is_stripped_b64url_sha256 (s : String) :
    fingerprint s = String.mk (b64urlEncodeNoPad (sha256 (utf8Encode s))) ∧
    (∀ c ∈ (fingerprint s).toList, c ∈ b64UrlAlphabet) ∧
    '=' ∉ (fingerprint s).toList := by
  have key : (fingerprint s).toList = rstripEq (b64urlEncode (sha256 (utf8Encode s))) := rfl
  rw [rstripEq_b64urlEncode] at key
  refine ⟨?_, ?_, ?_⟩
  · exact congrArg String.mk (rstripEq_b64urlEncode _)
  · rw [key]
    exact mem_b64urlEncodeNoPad _
  · rw [key]
    intro hmem
    exact absurd (mem_b64urlEncodeNoPad _ _ hmem) (by decide)

/-- Claim C2: for a 32-byte (256-bit) random value, the secret text is the
padding-free URL-safe base64 encoding of those bytes, every character of it
lies in the URL-safe alphabet, and it contains no `=` padding character. -/
theorem C2_secret_is_urlsafe_nopad (bs : List Nat) (h : bs.length = 32) :
    secret bs = String.mk (b64urlEncodeNoPad bs) ∧
    (∀ c ∈ (secret bs).toList, c ∈ b64UrlAlphabet) ∧
    '=' ∉ (secret bs).toList := by
  have key : (secret bs).toList = rstripEq (b64urlEncode bs) := rfl
  rw [rstripEq_b64urlEncode] at key
  refine ⟨?_, ?_, ?_⟩
  · exact congrArg String.mk (rstripEq_b64urlEncode _)
  · rw [key]
    exact mem_b64urlEncodeNoPad _
  · rw [key]
    intro hmem
    exact absurd (mem_b64urlEncodeNoPad _ _ hmem) (by decide)

/-- Witness for C2 at a concrete 32-byte input. -/
theorem C2_secret_is_urlsafe_nopad_witness :
    (List.replicate 32 7).length = 32 ∧
    (secret (List.replicate 32 7) = String.mk (b64urlEncodeNoPad (List.replicate 32 7)) ∧
     (∀ c ∈ (secret (List.replicate 32 7)).toList, c ∈ b64UrlAlphabet) ∧
     '=' ∉ (secret (List.replicate 32 7)).toList) :=
  ⟨by decide, C2_secret_is_urlsafe_nopad (List.replicate 32 7) (by decide)⟩

/-- Claim C5: for every 32-byte value, URL-safe base64 encoding with the
padding stripped followed by decoding recovers exactly the original bytes. -/
theorem C5_secret_encoding_roundtrip (bs : List Nat) (hlen : bs.length = 32)
    (hbyte : ∀ b ∈ bs, b < 256) :
    b64urlDecodeNoPad (secret bs).toList = bs := by
  have key : (secret bs).toList = rstripEq (b64urlEncode bs) := rfl
  rw [rstripEq_b64urlEncode] at key
  rw [key]
  exact b64urlDecodeNoPad_encodeNoPad bs hbyte

/-- Witness for C5 at a concrete 32-byte input. -/
theorem C5_secret_encoding_roundtrip_witness :
    (List.range 32).length = 32 ∧ (∀ b ∈ List.range 32, b < 256) ∧
    b64urlDecodeNoPad (secret (List.range 32)).toList = List.range 32 :=
  ⟨by decide, by decide,
   C5_secret_encoding_roundtrip (List.range 32) (by decide) (by decide)⟩

/-- Claim C6: the credential row created at issuance has status `active` and
expires exactly 365 days after its issuance timestamp. -/
theorem C6_active_with_365_day_window (i : RunInputs) :
    (apiKeyRow i).status = "active" ∧
    (apiKeyRow i).expires_at = (apiKeyRow i).issued_at + interval365days :=
  ⟨rfl, rfl⟩

/-- Claim C8: fingerprinting is deterministic and reads nothing but the
secret text: two runs agreeing on the random secret bytes produce the same
stored fingerprint, whatever their UUIDs and timestamps. -/
theorem C8_fingerprint_deterministic (i j : RunInputs)
    (h : i.secret_bytes = j.secret_bytes) :
    (apiKeyRow i).fingerprint = (apiKeyRow j).fingerprint ∧
    fingerprint (secret i.secret_bytes) = fingerprint (secret j.secret_bytes) := by
  constructor
  · show fingerprint (secret i.secret_bytes) = fingerprint (secret j.secret_bytes)
    rw [h]
  · rw [h]

/-- First of two concrete runs sharing the same random bytes. -/
def runA : RunInputs :=
  { secret_bytes := List.replicate 32 1, org_id := "o1", user_id := "u1",
    api_key_id := "k1", now := 5 }

/-- Second concrete run: same random bytes, every other input different. -/
def runB : RunInputs :=
  { secret_bytes := List.replicate 32 1, org_id := "o2", user_id := "u2",
    api_key_id := "k2", now := 9 }

/-- Witness for C8 at the two concrete runs. -/
theorem C8_fingerprint_deterministic_witness :
    runA.secret_bytes = runB.secret_bytes ∧
    ((apiKeyRow runA).fingerprint = (apiKeyRow runB).fingerprint ∧
     fingerprint (secret runA.secret_bytes) = fingerprint (secret runB.secret_bytes)) :=
  ⟨rfl, C8_fingerprint_deterministic runA runB rfl⟩

/-- Claim C9: the three rows a run emits are referentially consistent: the
api_keys row points at the emitted org and user rows, its principal type is
`user`, and the user row belongs to the same org. -/
theorem C9_rows_referentially_consistent (i : RunInputs) :
    (apiKeyRow i).org_id = (orgRow i).org_id ∧
    (apiKeyRow i).principal_id = (userRow i).user_id ∧
    (apiKeyRow i).principal_type = "user" ∧
    (userRow i).org_id = (orgRow i).org_id :=
  ⟨rfl, rfl, rfl, rfl⟩

/-- Counterexample to claim C4 as stated: the secret is interpolated into
the emitted output at two sites, not exactly one. -/
theorem C4_secret_not_emitted_once : ¬ emittedVars.count ScriptVar.vSecret = 1 := by
  decide

/-- Claim C4 (amended): the clear-text secret appears exactly twice in the
emitted output — once in the SQL comment banner and once in the final
summary block — and nowhere else. -/
theorem C4_secret_emitted_twice : emittedVars.count ScriptVar.vSecret = 2 := by
  decide

/-- From an empty match count, no stored row matches the key. -/
theorem countKey_zero_no_match (store : List ApiKeyRow) (org fp : String)
    (h : countKey store org fp = 0) :
    ∀ r ∈ store, (r.org_id == org && r.fingerprint == fp) = false := by
  intro r hr
  have hnil := List.eq_nil_of_length_eq_zero h
  have := List.filter_eq_nil.mp hnil r hr
  exact Bool.not_eq_true _ ▸ (by simpa using this)

/-- Claim C3: upserting twice with the same (org_id, fingerprint) key into a
store that did not yet hold that key leaves exactly one row with the key,
adds no row on the second upsert, and that row carries the second upsert's
expires_at with the first insert's identity fields, only status and
expires_at refreshed. -/
theorem C3_upsert_idempotent (store : List ApiKeyRow) (row1 row2 : ApiKeyRow)
    (now1 now2 : Nat)
    (horg : row2.org_id = row1.org_id) (hfp : row2.fingerprint = row1.fingerprint)
    (h0 : countKey store row1.org_id row1.fingerprint = 0) :
    countKey (upsertApiKey (upsertApiKey store row1 now1) row2 now2)
        row1.org_id row1.fingerprint = 1 ∧
    (upsertApiKey (upsertApiKey store row1 now1) row2 now2).length =
        (upsertApiKey store row1 now1).length ∧
    ({ row1 with status := "active", expires_at := now2 + interval365days } : ApiKeyRow) ∈
        upsertApiKey (upsertApiKey store row1 now1) row2 now2 := by
  have hmiss := countKey_zero_no_match store row1.org_id row1.fingerprint h0
  have hany1 : store.any (fun r => r.org_id == row1.org_id &&
      r.fingerprint == row1.fingerprint) = false :=
    List.any_eq_false.mpr (fun r hr => by rw [hmiss r hr]; exact Bool.false_ne_true)
  have hs1 : upsertApiKey store row1 now1 = store ++ [row1] := by
    unfold upsertApiKey
    rw [hany1]
    simp
  have hself : (row1.org_id == row1.org_id && row1.fingerprint == row1.fingerprint) = true := by
    simp
  have hany2 : (store ++ [row1]).any (fun r => r.org_id == row2.org_id &&
      r.fingerprint == row2.fingerprint) = true := by
    rw [horg, hfp]
    exact List.any_eq_true.mpr ⟨row1, by simp, hself⟩
  have hupd : ∀ r ∈ store,
      (if (r.org_id == row1.org_id && r.fingerprint == row1.fingerprint) = true then
        ({ r with status := "active", expires_at := now2 + interval365days } : ApiKeyRow)
       else r) = r := by
    intro r hr
    rw [hmiss r hr]
    simp
  have hs2 : upsertApiKey (upsertApiKey store row1 now1) row2 now2 =
      store ++ [{ row1 with status := "active", expires_at := now2 + interval365days }] := by
    rw [hs1]
    unfold upsertApiKey
    rw [hany2]
    simp only [if_true, List.map_append, horg, hfp]
    rw [List.map_congr_left hupd]
    simp [hself]
  refine ⟨?_, ?_, ?_⟩
  · rw [hs2]
    unfold countKey
    rw [List.filter_append]
    have : store.filter (fun r => r.org_id == row1.org_id &&
        r.fingerprint == row1.fingerprint) = [] := by
      exact List.filter_eq_nil.mpr (fun r hr => by rw [hmiss r hr]; exact Bool.false_ne_true)
    rw [this]
    simp
  · rw [hs2, hs1]
    simp
  · rw [hs2]
    exact List.mem_append_right _ (List.mem_singleton.mpr rfl)

/-- Witness for C3: an empty store, one concrete credential row upserted at
two different times. -/
theorem C3_upsert_idempotent_witness :
    (apiKeyRow runA).org_id = (apiKeyRow runA).org_id ∧
    (apiKeyRow runA).fingerprint = (apiKeyRow runA).fingerprint ∧
    countKey [] (apiKeyRow runA).org_id (apiKeyRow runA).fingerprint = 0 ∧
    (countKey (upsertApiKey (upsertApiKey [] (apiKeyRow runA) 5) (apiKeyRow runA) 9)
        (apiKeyRow runA).org_id (apiKeyRow runA).fingerprint = 1 ∧
     (upsertApiKey (upsertApiKey [] (apiKeyRow runA) 5) (apiKeyRow runA) 9).length =
        (upsertApiKey [] (apiKeyRow runA) 5).length ∧
     ({ apiKeyRow runA with
          status := "active",
          expires_at := 9 + interval365days } : ApiKeyRow) ∈
        upsertApiKey (upsertApiKey [] (apiKeyRow runA) 5) (apiKeyRow runA) 9) :=
  ⟨rfl, rfl, rfl,
   C3_upsert_idempotent [] (apiKeyRow runA) (apiKeyRow runA) 5 9 rfl rfl rfl⟩

/-- Claim C7: when the org upsert hits a slug conflict, the store keeps its
length and each stored row keeps every field except possibly status; a row
whose slug differs from the incoming one keeps its status as well, and a
conflicting row's status becomes `active`. -/
theorem C7_org_upsert_frame (store : List OrgRow) (row : OrgRow)
    (h : store.any (fun r => r.slug == row.slug) = true) :
    (upsertOrg store row).length = store.length ∧
    List.Forall₂ (fun r r' =>
      r'.org_id = r.org_id ∧ r'.slug = r.slug ∧ r'.name = r.name ∧
      r'.declarative_mode = r.declarative_mode ∧
      r'.mfa_required_roles = r.mfa_required_roles ∧ r'.metadata = r.metadata ∧
      r'.created_at = r.created_at ∧ r'.updated_at = r.updated_at ∧
      (r.slug ≠ row.slug → r' = r) ∧
      (r.slug = row.slug → r'.status = "active"))
      store (upsertOrg store row) := by
  have hdef : upsertOrg store row =
      store.map (fun r => if r.slug == row.slug then { r with status := "active" } else r) := by
    unfold upsertOrg
    rw [h]
    simp
  constructor
  · rw [hdef, List.length_map]
  · rw [hdef]
    rw [List.forall₂_map_right_iff]
    refine List.forall₂_same.mpr (fun r _ => ?_)
    by_cases hs : r.slug = row.slug
    · rw [if_pos (by simpa using hs)]
      refine ⟨rfl, rfl, rfl, rfl, rfl, rfl, rfl, rfl, fun hne => absurd hs hne, fun _ => rfl⟩
    · rw [if_neg (by simpa using hs)]
      exact ⟨rfl, rfl, rfl, rfl, rfl, rfl, rfl, rfl, fun _ => rfl, fun he => absurd he hs⟩

/-- Witness for C7: a one-row store holding the script's own org row, hit by
a second upsert with the same slug. -/
theorem C7_org_upsert_frame_witness :
    ([orgRow runA].any (fun r => r.slug == (orgRow runB).slug) = true) ∧
    ((upsertOrg [orgRow runA] (orgRow runB)).length = [orgRow runA].length ∧
     List.Forall₂ (fun r r' =>
       r'.org_id = r.org_id ∧ r'.slug = r.slug ∧ r'.name = r.name ∧
       r'.declarative_mode = r.declarative_mode ∧
       r'.mfa_required_roles = r.mfa_required_roles ∧ r'.metadata = r.metadata ∧
       r'.created_at = r.created_at ∧ r'.updated_at = r.updated_at ∧
       (r.slug ≠ (orgRow runB).slug → r' = r) ∧
       (r.slug = (orgRow runB).slug → r'.status = "active"))
       [orgRow runA] (upsertOrg [orgRow runA] (orgRow runB))) :=
  ⟨by decide, C7_org_upsert_frame [orgRow runA] (orgRow runB) (by decide)⟩

/-- Claim C10: the mock completions response uses exactly
`min(word count + 10, max_tokens)` tokens, never exceeds `max_tokens`, and
its text is the prompt with the fixed mock suffix appended. -/
theorem C10_completions_shape (req : CompletionRequest) :
    (completions req).tokens_used = min ((splitCount req.prompt : Int) + 10) req.max_tokens ∧
    (completions req).tokens_used ≤ req.max_tokens ∧
    (completions req).text = req.prompt ++ " [mock inference response]" :=
  ⟨rfl, min_le_right _ _, rfl⟩

end AiAas
